import Mathlib

/-!
Shallow embedding of the event-to-record image-analysis pipeline:
the three Lambda handlers under `src/lambda/` and the extension check of
`src/scripts/analyze_image_foundational.py`.

External collaborators (the Rekognition classifier and the DynamoDB store)
are modelled as function fields of an `Env`; the handlers additionally
return a `Trace` of the classifier calls made, the store writes attempted
and the store writes that succeeded, so that statements about "zero calls"
or "records persisted" can be made precise.
-/

/-- Model of Python's `str.lower` (ASCII case folding, which is all the
    repository's keys use). -/
def pyLower (s : String) : String := String.mk (s.data.map Char.toLower)

/-- Model of Python's `str.startswith`. -/
def pyStartsWith (s pre : String) : Bool := pre.data.isPrefixOf s.data

/-- Model of Python's `str.endswith` for a single suffix. -/
def pyEndsWith (s suf : String) : Bool := suf.data.isSuffixOf s.data

/-- Model of Python's `str.lower().endswith(tuple_of_suffixes)`:
    true when some listed suffix ends the lowercased string. -/
def lowerEndsWithAny (s : String) (sufs : List String) : Bool :=
  sufs.any (fun e => pyEndsWith (pyLower s) e)

/-- Value of an ASCII hex digit, `none` for a non-hex character. -/
def hexVal (c : Char) : Option Nat :=
  if '0' ≤ c ∧ c ≤ '9' then some (c.toNat - 48)
  else if 'a' ≤ c ∧ c ≤ 'f' then some (c.toNat - 87)
  else if 'A' ≤ c ∧ c ≤ 'F' then some (c.toNat - 55)
  else none

/-- Character scanner behind `unquote_plus`: `+` becomes a space, a `%`
    followed by two hex digits becomes the encoded character, an invalid
    escape is kept literally (as Python's `urllib.parse.unquote` does).
    The `fuel` argument only drives structural recursion; every step
    consumes at least one character, so `fuel = length` is enough and the
    fuel-exhausted fallback is never reached from `unquote_plus`. -/
def unquotePlusChars : Nat → List Char → List Char
  | 0, l => l
  | _, [] => []
  | fuel + 1, '+' :: rest => ' ' :: unquotePlusChars fuel rest
  | fuel + 1, '%' :: rest =>
    match rest with
    | h1 :: h2 :: rest2 =>
      match hexVal h1, hexVal h2 with
      | some a, some b => Char.ofNat (16 * a + b) :: unquotePlusChars fuel rest2
      | _, _ => '%' :: unquotePlusChars fuel (h1 :: h2 :: rest2)
    | _ => '%' :: unquotePlusChars fuel rest
  | fuel + 1, c :: rest => c :: unquotePlusChars fuel rest

/-- Model of Python's `urllib.parse.unquote_plus` on ASCII data: resolves
    `+` to a space and `%XX` escapes to the encoded character. -/
def unquote_plus (s : String) : String :=
  String.mk (unquotePlusChars s.data.length s.data)

/-- Model of Python's `str.split(sep)` for a single-character separator
    (accumulator holds the current segment reversed). -/
def pySplitChars (sep : Char) : List Char → List Char → List (List Char)
  | [], acc => [acc.reverse]
  | c :: rest, acc =>
    if c = sep then acc.reverse :: pySplitChars sep rest []
    else pySplitChars sep rest (c :: acc)

/-- Model of Python's `str.split('/')` and friends. -/
def pySplit (s : String) (sep : Char) : List String :=
  (pySplitChars sep s.data []).map String.mk

/-- UTC wall-clock instant, as Python's `datetime.utcnow()` exposes it. -/
structure UTCTime where
  year : Nat
  month : Nat
  day : Nat
  hour : Nat
  minute : Nat
  second : Nat
  microsecond : Nat
deriving DecidableEq, Repr

/-- Zero-pad a numeral to the given width. -/
def padNum (width n : Nat) : String :=
  let s := toString n
  String.mk (List.replicate (width - s.length) '0') ++ s

/-- Model of Python's `datetime.isoformat()` on a naive UTC datetime:
    `YYYY-MM-DDTHH:MM:SS`, extended with `.ffffff` when the microsecond
    field is nonzero (exactly Python's behaviour). -/
def pyIsoformat (t : UTCTime) : String :=
  padNum 4 t.year ++ "-" ++ padNum 2 t.month ++ "-" ++ padNum 2 t.day ++ "T" ++
    padNum 2 t.hour ++ ":" ++ padNum 2 t.minute ++ ":" ++ padNum 2 t.second ++
    (if t.microsecond = 0 then "" else "." ++ padNum 6 t.microsecond)

/-- Python's `round` rounds half to even. -/
def roundHalfEven (q : ℚ) : ℤ :=
  if q - ⌊q⌋ < 1/2 then ⌊q⌋
  else if q - ⌊q⌋ > 1/2 then ⌊q⌋ + 1
  else if ⌊q⌋ % 2 = 0 then ⌊q⌋ else ⌊q⌋ + 1

/-- Model of Python's `round(x, 2)`. -/
def round2 (q : ℚ) : ℚ := (roundHalfEven (q * 100) : ℚ) / 100

/-- A label as returned by the classifier (source precision). -/
structure Label where
  name : String
  confidence : ℚ
deriving DecidableEq, Repr

/-- A label as formatted for storage: confidence rounded to 2 decimals. -/
structure FormattedLabel where
  name : String
  confidence : ℚ
deriving DecidableEq, Repr

/-- The formatting step applied to each classifier label before storage. -/
def fmtLabel (l : Label) : FormattedLabel :=
  { name := l.name, confidence := round2 l.confidence }

/-- Successful `detect_labels` response: label list plus the
    `ResponseMetadata.RequestId` correlation id. -/
structure RekApiResponse where
  labels : List Label
  requestId : String
deriving DecidableEq, Repr

/-- One `detect_labels` invocation as observed at the service boundary. -/
structure RekCall where
  bucket : String
  key : String
  maxLabels : Nat
  minConfidence : ℚ
deriving DecidableEq, Repr

/-- The DynamoDB item each handler builds. Fields that only some handlers
    set are `Option`s; `none` models the key being absent from the dict. -/
structure Item where
  filename : String
  labels : List FormattedLabel
  timestamp : String
  branch : String
  environment : String
  label_count : Nat
  rekognition_request_id : Option String
  analysis_method : Option String
  s3_bucket : Option String
  ttl : Option Nat
deriving DecidableEq, Repr

/-- Observable side effects of one invocation: classifier calls made,
    store writes attempted, and store writes that succeeded. -/
structure Trace where
  rekCalls : List RekCall
  putCalls : List Item
  stored : List Item
deriving DecidableEq, Repr

/-- The empty trace. -/
def Trace.empty : Trace := ⟨[], [], []⟩

/-- One record of an S3 event notification: bucket name and the raw
    (still percent-encoded) object key. -/
structure S3ObjectRef where
  bucket : String
  rawKey : String
deriving DecidableEq, Repr

/-- An S3 event notification. `records? = none` models a payload whose
    top-level structure lacks the `Records` list (so `event` subscripting
    raises `KeyError`). -/
structure S3Event where
  records? : Option (List S3ObjectRef)
deriving DecidableEq, Repr

/-- Uncaught Python exception kinds relevant here. -/
inductive PyErr where
  | attributeError
deriving DecidableEq, Repr

/-- Ambient configuration and external collaborators of an invocation:
    the classifier and the store as fallible functions, the current UTC
    time (one instant per invocation, read at record creation), and the
    environment variables the handlers read. -/
structure Env where
  detectLabels : RekCall → Except String RekApiResponse
  putItem : String → Item → Except String Unit
  now : UTCTime
  nowEpoch : Nat
  ENVIRONMENT : String
  DYNAMODB_TABLE : String
  DYNAMODB_TABLE_PROD : String
  MAX_LABELS : Nat
  MIN_CONFIDENCE : ℚ

/-- Whether an `Except` is a success. -/
def exOk {ε α : Type} : Except ε α → Bool
  | .ok _ => true
  | .error _ => false

/-- The classifier call the batch handler makes for a record: its bucket,
    its decoded key, and the invocation's configured caps
    (`src/lambda/rekognition_handler.py:46-55`). -/
def rekCallOf (env : Env) (r : S3ObjectRef) : RekCall :=
  { bucket := r.bucket, key := unquote_plus r.rawKey
  , maxLabels := env.MAX_LABELS, minConfidence := env.MIN_CONFIDENCE }

namespace rekognition_handler

/-- Accepted image extensions (`src/lambda/rekognition_handler.py:40`). -/
def imageExts : List String := [".jpg", ".jpeg", ".png"]

/-- The DynamoDB item built for one processed key
    (`src/lambda/rekognition_handler.py:77-90`): formatted labels, branch
    from the key path, the invocation's environment label, and a TTL of
    90 days past the creation instant. -/
def mkItem (env : Env) (key : String) (resp : RekApiResponse) : Item :=
  { filename := key
  , labels := resp.labels.map fmtLabel
  , timestamp := pyIsoformat env.now ++ "Z"
  , branch := ((pySplit key '/')[1]?).getD env.ENVIRONMENT
  , environment := env.ENVIRONMENT
  , label_count := (resp.labels.map fmtLabel).length
  , rekognition_request_id := some resp.requestId
  , analysis_method := none
  , s3_bucket := none
  , ttl := some (env.nowEpoch + 90 * 24 * 60 * 60) }

/-- Result of the per-record loop: either it ran to completion or an
    exception propagated to the handler's outer `except`. Both carry the
    side-effect trace accumulated so far. -/
inductive LoopRes where
  | done (tr : Trace)
  | fail (err : String) (tr : Trace)
deriving DecidableEq, Repr

/-- The trace of a loop result. -/
def LoopRes.trace : LoopRes → Trace
  | .done tr => tr
  | .fail _ tr => tr

/-- The `for record in event['Records']` loop
    (`src/lambda/rekognition_handler.py:32-103`): decode the key, skip
    non-image extensions, classify, build the item, store it; a classifier
    or store error is re-raised, aborting the remaining records. -/
def processRecords (env : Env) : List S3ObjectRef → LoopRes
  | [] => .done Trace.empty
  | r :: rest =>
    let key := unquote_plus r.rawKey
    if lowerEndsWithAny key imageExts then
      match env.detectLabels (rekCallOf env r) with
      | .error e =>
        .fail ("Error calling Rekognition: " ++ e) ⟨[rekCallOf env r], [], []⟩
      | .ok resp =>
        let item := mkItem env key resp
        match env.putItem env.DYNAMODB_TABLE item with
        | .error e =>
          .fail ("Error writing to DynamoDB: " ++ e) ⟨[rekCallOf env r], [item], []⟩
        | .ok _ =>
          match processRecords env rest with
          | .done tr =>
            .done ⟨rekCallOf env r :: tr.rekCalls, item :: tr.putCalls,
              item :: tr.stored⟩
          | .fail er tr =>
            .fail er ⟨rekCallOf env r :: tr.rekCalls, item :: tr.putCalls,
              item :: tr.stored⟩
    else
      processRecords env rest

/-- Response of the batch handler: status code, the `processed_count`
    field of the success body, the error string of the failure body. -/
structure Out where
  statusCode : Nat
  processed_count : Option Nat
  errorMsg : Option String
  trace : Trace
deriving DecidableEq, Repr

/-- `lambda_handler` of `src/lambda/rekognition_handler.py`. A payload
    without `Records` raises `KeyError` inside the outer `try`, which the
    blanket `except` maps to a 500 response; a completed loop returns 200
    with `processed_count = len(event['Records'])`. -/
def lambda_handler (env : Env) (event : S3Event) : Out :=
  match event.records? with
  | none =>
    { statusCode := 500, processed_count := none
    , errorMsg := some "KeyError: Records", trace := Trace.empty }
  | some records =>
    match processRecords env records with
    | .done tr =>
      { statusCode := 200, processed_count := some records.length
      , errorMsg := none, trace := tr }
    | .fail e tr =>
      { statusCode := 500, processed_count := none
      , errorMsg := some e, trace := tr }

end rekognition_handler

namespace lambda_handler_beta

/-- Required key location for the beta handler
    (`src/lambda/lambda_handler_beta.py:48`). -/
def requiredStart : String := "rekognition-input/beta/"

/-- Accepted extensions (`src/lambda/lambda_handler_beta.py:57`). -/
def valid_extensions : List String := [".jpg", ".jpeg", ".png"]

/-- Response of the single-event beta handler. -/
structure Out where
  statusCode : Nat
  errorMsg : Option String
  filename : Option String
  label_count : Option Nat
  trace : Trace
deriving DecidableEq, Repr

/-- The DynamoDB item the beta handler builds
    (`src/lambda/lambda_handler_beta.py:107-116`); note it has no `ttl`
    key and no request id, but records the analysis method and bucket. -/
def mkItem (env : Env) (bucket key : String) (resp : RekApiResponse) : Item :=
  { filename := key
  , labels := resp.labels.map fmtLabel
  , timestamp := pyIsoformat env.now ++ "Z"
  , branch := "beta"
  , environment := "beta"
  , label_count := resp.labels.length
  , rekognition_request_id := none
  , analysis_method := some "lambda_s3_trigger"
  , s3_bucket := some bucket
  , ttl := none }

/-- A 400 response with the given parse/validation error. -/
def err400 (msg : String) : Out :=
  { statusCode := 400, errorMsg := some msg, filename := none
  , label_count := none, trace := Trace.empty }

/-- `lambda_handler` of `src/lambda/lambda_handler_beta.py`. Only
    `event['Records'][0]` is examined (a missing `Records` key or an empty
    list is caught as `KeyError`/`IndexError` and mapped to 400); the
    decoded key must start with the beta input path and carry an image
    extension; classifier and store errors map to 500. -/
def lambda_handler (env : Env) (event : S3Event) : Out :=
  match event.records? with
  | none => err400 "Error parsing S3 event: KeyError"
  | some [] => err400 "Error parsing S3 event: IndexError"
  | some (r :: _) =>
    let key := unquote_plus r.rawKey
    if !(pyStartsWith key requiredStart) then
      err400 "Invalid key prefix"
    else if !(lowerEndsWithAny key valid_extensions) then
      err400 "Invalid file type. Must be .jpg, .jpeg, or .png"
    else
      let call : RekCall :=
        { bucket := r.bucket, key := key, maxLabels := 10, minConfidence := 70 }
      match env.detectLabels call with
      | .error e =>
        { statusCode := 500, errorMsg := some ("Error calling Rekognition: " ++ e)
        , filename := none, label_count := none, trace := ⟨[call], [], []⟩ }
      | .ok resp =>
        let item := mkItem env r.bucket key resp
        match env.putItem env.DYNAMODB_TABLE item with
        | .error e =>
          { statusCode := 500
          , errorMsg := some ("Error writing to DynamoDB: " ++ e)
          , filename := none, label_count := none
          , trace := ⟨[call], [item], []⟩ }
        | .ok _ =>
          { statusCode := 200, errorMsg := none, filename := some key
          , label_count := some resp.labels.length
          , trace := ⟨[call], [item], [item]⟩ }

end lambda_handler_beta

namespace lambda_handler_prod

/-- Required key location (`src/lambda/lambda_handler_prod.py:37`). -/
def expectedStart : String := "rekognition-input/prod/"

/-- Accepted extensions (`src/lambda/lambda_handler_prod.py:47`). -/
def valid_extensions : List String := [".jpg", ".jpeg", ".png", ".pdf", ".heic"]

/-- Response of the prod handler: either a returned status code or an
    uncaught Python exception, plus the side-effect trace. -/
structure Out where
  returned : Option Nat
  raised : Option PyErr
  trace : Trace
deriving DecidableEq, Repr

/-- A returned 400 response. -/
def ret400 : Out := { returned := some 400, raised := none, trace := Trace.empty }

/-- `lambda_handler` of `src/lambda/lambda_handler_prod.py`. Parsing and
    validation mirror the beta handler (prod path, wider extension list,
    `MinConfidence=50`). After a successful classifier call, line 86
    evaluates `datetime.timezone().isoformat(timespec='seconds')`; with
    `from datetime import datetime` in scope, `datetime` is the datetime
    class, which has no `timezone` attribute, so the expression raises an
    uncaught `AttributeError` and nothing after it (item build, store
    write, success response, lines 87-124) is reachable. -/
def lambda_handler (env : Env) (event : S3Event) : Out :=
  match event.records? with
  | none => ret400
  | some [] => ret400
  | some (r :: _) =>
    let key := unquote_plus r.rawKey
    if !(pyStartsWith key expectedStart) then
      ret400
    else if !(lowerEndsWithAny key valid_extensions) then
      ret400
    else
      let call : RekCall :=
        { bucket := r.bucket, key := key, maxLabels := 10, minConfidence := 50 }
      match env.detectLabels call with
      | .error _ =>
        { returned := some 500, raised := none, trace := ⟨[call], [], []⟩ }
      | .ok _ =>
        { returned := none, raised := some .attributeError
        , trace := ⟨[call], [], []⟩ }

end lambda_handler_prod

namespace analyze_image_foundational

/-- Accepted extensions of the direct-invocation script
    (`src/scripts/analyze_image_foundational.py:39`); note the last entry
    is the bare string `pdf`, with no leading dot. -/
def valid_extensions : List String := [".jpg", ".jpeg", ".png", "pdf"]

/-- The script's extension gate
    (`src/scripts/analyze_image_foundational.py:40`):
    `any(filename.lower().endswith(ext) for ext in valid_extensions)`. -/
def extensionOk (filename : String) : Bool :=
  valid_extensions.any (fun ext => pyEndsWith (pyLower filename) ext)

end analyze_image_foundational

/-! ### Concrete fixtures used by witnesses and counterexamples -/

/-- A fixed creation instant. -/
def t0 : UTCTime := ⟨2025, 10, 12, 8, 30, 45, 123456⟩

/-- A fixed classifier response: one label, confidence 93.456. -/
def dogResp : RekApiResponse :=
  { labels := [{ name := "Dog", confidence := (93456 : ℚ) / 1000 }]
  , requestId := "req-1" }

/-- A classifier stub that always succeeds with `dogResp`. -/
def okClassifier : RekCall → Except String RekApiResponse :=
  fun _ => .ok dogResp

/-- A store stub that always succeeds. -/
def okPut : String → Item → Except String Unit := fun _ _ => .ok ()

/-- Baseline environment: classifier and store succeed, default
    configuration of `rekognition_handler.py`. -/
def env0 : Env :=
  { detectLabels := okClassifier, putItem := okPut, now := t0
  , nowEpoch := 1760000000, ENVIRONMENT := "beta"
  , DYNAMODB_TABLE := "beta_results", DYNAMODB_TABLE_PROD := "beta_results"
  , MAX_LABELS := 10, MIN_CONFIDENCE := 70 }

/-- Environment whose classifier fails with a transport error. -/
def envFail : Env :=
  { env0 with detectLabels := fun _ => .error "timeout" }

/-- A record whose decoded key fails the extension check contributes
    nothing to the batch loop: the loop continues as if it were absent. -/
theorem processRecords_skip (env : Env) (r : S3ObjectRef) (rest : List S3ObjectRef)
    (hx : lowerEndsWithAny (unquote_plus r.rawKey) rekognition_handler.imageExts = false) :
    rekognition_handler.processRecords env (r :: rest) =
      rekognition_handler.processRecords env rest := by
  simp [rekognition_handler.processRecords, hx]

/-- Every item the batch loop stores is the built item for some record of
    the batch, keyed by that record's decoded key. -/
theorem processRecords_stored_shape (env : Env) :
    ∀ (rs : List S3ObjectRef) (it : Item),
      it ∈ (rekognition_handler.processRecords env rs).trace.stored →
      ∃ r ∈ rs, ∃ resp,
        it = rekognition_handler.mkItem env (unquote_plus r.rawKey) resp := by
  intro rs
  induction rs with
  | nil =>
    intro it h
    simp [rekognition_handler.processRecords, rekognition_handler.LoopRes.trace,
      Trace.empty] at h
  | cons r rest ih =>
    intro it h
    by_cases hx :
        lowerEndsWithAny (unquote_plus r.rawKey) rekognition_handler.imageExts
    · simp only [rekognition_handler.processRecords, hx, if_true] at h
      rcases hd : env.detectLabels (rekCallOf env r) with e | resp
      · rw [hd] at h
        simp [rekognition_handler.LoopRes.trace] at h
      · rw [hd] at h
        dsimp only at h
        rcases hp : env.putItem env.DYNAMODB_TABLE
            (rekognition_handler.mkItem env (unquote_plus r.rawKey) resp) with e | u
        · rw [hp] at h
          simp [rekognition_handler.LoopRes.trace] at h
        · rw [hp] at h
          dsimp only at h
          rcases hrec : rekognition_handler.processRecords env rest with tr | ⟨er, tr⟩
          · rw [hrec] at h
            simp [rekognition_handler.LoopRes.trace] at h
            rcases h with h | h
            · exact ⟨r, by simp, resp, h⟩
            · have hmem := ih it (by rw [hrec]; exact h)
              rcases hmem with ⟨r', hr', resp', hit⟩
              exact ⟨r', by simp [hr'], resp', hit⟩
          · rw [hrec] at h
            simp [rekognition_handler.LoopRes.trace] at h
            rcases h with h | h
            · exact ⟨r, by simp, resp, h⟩
            · have hmem := ih it (by rw [hrec]; exact h)
              rcases hmem with ⟨r', hr', resp', hit⟩
              exact ⟨r', by simp [hr'], resp', hit⟩
    · rw [processRecords_skip env r rest (by simpa using hx)] at h
      rcases ih it h with ⟨r', hr', resp', hit⟩
      exact ⟨r', by simp [hr'], resp', hit⟩

/-- Every classifier call the batch loop makes is the call for some
    record of the batch (bucket and decoded key of that record). -/
theorem processRecords_calls_shape (env : Env) :
    ∀ (rs : List S3ObjectRef) (c : RekCall),
      c ∈ (rekognition_handler.processRecords env rs).trace.rekCalls →
      ∃ r ∈ rs, c = rekCallOf env r := by
  intro rs
  induction rs with
  | nil =>
    intro c h
    simp [rekognition_handler.processRecords, rekognition_handler.LoopRes.trace,
      Trace.empty] at h
  | cons r rest ih =>
    intro c h
    by_cases hx :
        lowerEndsWithAny (unquote_plus r.rawKey) rekognition_handler.imageExts
    · simp only [rekognition_handler.processRecords, hx, if_true] at h
      rcases hd : env.detectLabels (rekCallOf env r) with e | resp
      · rw [hd] at h
        simp [rekognition_handler.LoopRes.trace] at h
        exact ⟨r, by simp, h⟩
      · rw [hd] at h
        dsimp only at h
        rcases hp : env.putItem env.DYNAMODB_TABLE
            (rekognition_handler.mkItem env (unquote_plus r.rawKey) resp) with e | u
        · rw [hp] at h
          simp [rekognition_handler.LoopRes.trace] at h
          exact ⟨r, by simp, h⟩
        · rw [hp] at h
          dsimp only at h
          rcases hrec : rekognition_handler.processRecords env rest with tr | ⟨er, tr⟩
          · rw [hrec] at h
            simp [rekognition_handler.LoopRes.trace] at h
            rcases h with h | h
            · exact ⟨r, by simp, h⟩
            · have hmem := ih c (by rw [hrec]; exact h)
              rcases hmem with ⟨r', hr', hc⟩
              exact ⟨r', by simp [hr'], hc⟩
          · rw [hrec] at h
            simp [rekognition_handler.LoopRes.trace] at h
            rcases h with h | h
            · exact ⟨r, by simp, h⟩
            · have hmem := ih c (by rw [hrec]; exact h)
              rcases hmem with ⟨r', hr', hc⟩
              exact ⟨r', by simp [hr'], hc⟩
    · rw [processRecords_skip env r rest (by simpa using hx)] at h
      rcases ih c h with ⟨r', hr', hc⟩
      exact ⟨r', by simp [hr'], hc⟩

/-- When classifier and store both succeed and every key in the batch
    passes the extension check, the batch loop classifies each record, in
    arrival order: the call list is the per-record call list. -/
theorem processRecords_allOk_calls (env : Env)
    (hc : ∀ c, exOk (env.detectLabels c) = true)
    (hp : ∀ t it, exOk (env.putItem t it) = true) :
    ∀ rs : List S3ObjectRef,
      (∀ r ∈ rs,
        lowerEndsWithAny (unquote_plus r.rawKey) rekognition_handler.imageExts = true) →
      (rekognition_handler.processRecords env rs).trace.rekCalls =
        rs.map (rekCallOf env) := by
  intro rs
  induction rs with
  | nil =>
    intro _
    simp [rekognition_handler.processRecords, rekognition_handler.LoopRes.trace,
      Trace.empty]
  | cons r rest ih =>
    intro hall
    have hx := hall r (by simp)
    simp only [rekognition_handler.processRecords, hx, if_true]
    rcases hd : env.detectLabels (rekCallOf env r) with e | resp
    · have := hc (rekCallOf env r)
      rw [hd] at this
      simp [exOk] at this
    · dsimp only
      rcases hput : env.putItem env.DYNAMODB_TABLE
          (rekognition_handler.mkItem env (unquote_plus r.rawKey) resp) with e | u
      · have := hp env.DYNAMODB_TABLE
            (rekognition_handler.mkItem env (unquote_plus r.rawKey) resp)
        rw [hput] at this
        simp [exOk] at this
      · dsimp only
        have hrest := ih (fun r' hr' => hall r' (by simp [hr']))
        rcases hrec : rekognition_handler.processRecords env rest with tr | ⟨er, tr⟩
        · rw [hrec] at hrest
          simp [rekognition_handler.LoopRes.trace] at hrest ⊢
          exact hrest
        · rw [hrec] at hrest
          simp [rekognition_handler.LoopRes.trace] at hrest ⊢
          exact hrest

/-- Every item the beta handler persists is its built item for the first
    record's decoded key. -/
theorem beta_stored_shape (env : Env) (ev : S3Event) (it : Item)
    (h : it ∈ (lambda_handler_beta.lambda_handler env ev).trace.stored) :
    ∃ r rest resp, ev.records? = some (r :: rest) ∧
      it = lambda_handler_beta.mkItem env r.bucket (unquote_plus r.rawKey) resp := by
  rcases ev with ⟨_ | (_ | ⟨r, rest⟩)⟩
  · simp [lambda_handler_beta.lambda_handler, lambda_handler_beta.err400,
      Trace.empty] at h
  · simp [lambda_handler_beta.lambda_handler, lambda_handler_beta.err400,
      Trace.empty] at h
  · simp only [lambda_handler_beta.lambda_handler] at h
    by_cases hpre :
        pyStartsWith (unquote_plus r.rawKey) lambda_handler_beta.requiredStart
    · by_cases hext :
          lowerEndsWithAny (unquote_plus r.rawKey) lambda_handler_beta.valid_extensions
      · simp only [hpre, hext, Bool.not_true, Bool.false_eq_true, if_false] at h
        rcases hd : env.detectLabels
            { bucket := r.bucket, key := unquote_plus r.rawKey
            , maxLabels := 10, minConfidence := 70 } with e | resp
        · rw [hd] at h
          simp at h
        · rw [hd] at h
          dsimp only at h
          rcases hp : env.putItem env.DYNAMODB_TABLE
              (lambda_handler_beta.mkItem env r.bucket (unquote_plus r.rawKey) resp)
              with e | u
          · rw [hp] at h
            simp at h
          · rw [hp] at h
            simp at h
            exact ⟨r, rest, resp, rfl, h⟩
      · simp only [hpre, Bool.not_true, Bool.false_eq_true, if_false,
          Bool.not_eq_true] at h
        simp [Bool.not_eq_true] at hext
        simp [hext, lambda_handler_beta.err400, Trace.empty] at h
    · simp [Bool.not_eq_true] at hpre
      simp [hpre, lambda_handler_beta.err400, Trace.empty] at h

/-- Every classifier call the beta handler makes carries the first
    record's bucket and decoded key (with the fixed caps 10 and 70). -/
theorem beta_calls_shape (env : Env) (ev : S3Event) (c : RekCall)
    (h : c ∈ (lambda_handler_beta.lambda_handler env ev).trace.rekCalls) :
    ∃ r rest, ev.records? = some (r :: rest) ∧
      c = { bucket := r.bucket, key := unquote_plus r.rawKey
          , maxLabels := 10, minConfidence := 70 } := by
  rcases ev with ⟨_ | (_ | ⟨r, rest⟩)⟩
  · simp [lambda_handler_beta.lambda_handler, lambda_handler_beta.err400,
      Trace.empty] at h
  · simp [lambda_handler_beta.lambda_handler, lambda_handler_beta.err400,
      Trace.empty] at h
  · simp only [lambda_handler_beta.lambda_handler] at h
    by_cases hpre :
        pyStartsWith (unquote_plus r.rawKey) lambda_handler_beta.requiredStart
    · by_cases hext :
          lowerEndsWithAny (unquote_plus r.rawKey) lambda_handler_beta.valid_extensions
      · simp only [hpre, hext, Bool.not_true, Bool.false_eq_true, if_false] at h
        rcases hd : env.detectLabels
            { bucket := r.bucket, key := unquote_plus r.rawKey
            , maxLabels := 10, minConfidence := 70 } with e | resp
        · rw [hd] at h
          simp at h
          exact ⟨r, rest, rfl, h⟩
        · rw [hd] at h
          dsimp only at h
          rcases hp : env.putItem env.DYNAMODB_TABLE
              (lambda_handler_beta.mkItem env r.bucket (unquote_plus r.rawKey) resp)
              with e | u
          · rw [hp] at h
            simp at h
            exact ⟨r, rest, rfl, h⟩
          · rw [hp] at h
            simp at h
            exact ⟨r, rest, rfl, h⟩
      · simp [Bool.not_eq_true] at hext
        simp [hpre, hext, lambda_handler_beta.err400, Trace.empty] at h
    · simp [Bool.not_eq_true] at hpre
      simp [hpre, lambda_handler_beta.err400, Trace.empty] at h

/-- The prod handler never persists anything: every path either returns
    before the store write or dies on the `AttributeError` of line 86. -/
theorem prod_stored_empty (env : Env) (ev : S3Event) :
    (lambda_handler_prod.lambda_handler env ev).trace.stored = [] ∧
    (lambda_handler_prod.lambda_handler env ev).trace.putCalls = [] := by
  rcases ev with ⟨_ | (_ | ⟨r, rest⟩)⟩
  · exact ⟨rfl, rfl⟩
  · exact ⟨rfl, rfl⟩
  · simp only [lambda_handler_prod.lambda_handler]
    by_cases hpre :
        pyStartsWith (unquote_plus r.rawKey) lambda_handler_prod.expectedStart
    · by_cases hext :
          lowerEndsWithAny (unquote_plus r.rawKey) lambda_handler_prod.valid_extensions
      · simp only [hpre, hext, Bool.not_true, Bool.false_eq_true, if_false]
        rcases hd : env.detectLabels
            { bucket := r.bucket, key := unquote_plus r.rawKey
            , maxLabels := 10, minConfidence := 50 } with e | resp
        · exact ⟨rfl, rfl⟩
        · exact ⟨rfl, rfl⟩
      · simp [Bool.not_eq_true] at hext
        simp [hext, lambda_handler_prod.ret400, Trace.empty]
    · simp [Bool.not_eq_true] at hpre
      simp [hpre, lambda_handler_prod.ret400, Trace.empty]

/-- The batch handler's observable trace is the trace of its record loop. -/
theorem rek_handler_trace (env : Env) (rs : List S3ObjectRef) :
    (rekognition_handler.lambda_handler env ⟨some rs⟩).trace =
      (rekognition_handler.processRecords env rs).trace := by
  rcases hrec : rekognition_handler.processRecords env rs with tr | ⟨e, tr⟩ <;>
    simp [rekognition_handler.lambda_handler, hrec,
      rekognition_handler.LoopRes.trace]

/-! ### Claims -/

/-- C1, counterexample. The claim says a key failing the prefix check or
    the extension check triggers zero classifier calls and is recorded as
    a skip, not an invocation failure. Both halves fail: the batch handler
    has no prefix check, so the key `foo.jpg` — which is outside the
    required `rekognition-input/beta/` location — is still sent to the
    classifier (one call); and the beta handler answers a validation
    failure (`notes.txt`) with a 400 invocation failure, not a skip. -/
theorem C1_counterexample :
    pyStartsWith (unquote_plus "foo.jpg") lambda_handler_beta.requiredStart = false ∧
    (rekognition_handler.lambda_handler env0
      ⟨some [⟨"imgs", "foo.jpg"⟩]⟩).trace.rekCalls.length = 1 ∧
    (lambda_handler_beta.lambda_handler env0
      ⟨some [⟨"imgs", "rekognition-input/beta/notes.txt"⟩]⟩).statusCode = 400 := by
  refine ⟨by decide, by decide, by decide⟩

/-- C1 (amended): in the batch handler only the extension is validated —
    an extension-failing record is skipped (it contributes no classifier
    call, no store write, and leaves the invocation status what the rest
    of the batch makes it), while a key that merely violates the prefix
    policy is processed normally; in the beta handler a prefix- or
    extension-failing key makes zero classifier and store calls but ends
    the invocation with status 400 rather than being skipped. -/
theorem C1_amended :
    (∀ (env : Env) (r : S3ObjectRef) (rest : List S3ObjectRef),
      lowerEndsWithAny (unquote_plus r.rawKey) rekognition_handler.imageExts = false →
      (rekognition_handler.lambda_handler env ⟨some (r :: rest)⟩).statusCode =
        (rekognition_handler.lambda_handler env ⟨some rest⟩).statusCode ∧
      (rekognition_handler.lambda_handler env ⟨some (r :: rest)⟩).trace =
        (rekognition_handler.lambda_handler env ⟨some rest⟩).trace) ∧
    (∀ (env : Env) (bucket rawKey : String),
      (pyStartsWith (unquote_plus rawKey) lambda_handler_beta.requiredStart = false ∨
        lowerEndsWithAny (unquote_plus rawKey)
          lambda_handler_beta.valid_extensions = false) →
      (lambda_handler_beta.lambda_handler env
        ⟨some [⟨bucket, rawKey⟩]⟩).statusCode = 400 ∧
      (lambda_handler_beta.lambda_handler env
        ⟨some [⟨bucket, rawKey⟩]⟩).trace = Trace.empty) := by
  constructor
  · intro env r rest hx
    have hskip := processRecords_skip env r rest hx
    rcases hrec : rekognition_handler.processRecords env rest with tr | ⟨e, tr⟩ <;>
      constructor <;>
        simp [rekognition_handler.lambda_handler, hskip, hrec]
  · intro env bucket rawKey hbad
    rcases hbad with hpre | hext
    · constructor <;>
        simp [lambda_handler_beta.lambda_handler, hpre,
          lambda_handler_beta.err400]
    · by_cases hpre :
          pyStartsWith (unquote_plus rawKey) lambda_handler_beta.requiredStart
      · constructor <;>
          simp [lambda_handler_beta.lambda_handler, hpre, hext,
            lambda_handler_beta.err400]
      · simp [Bool.not_eq_true] at hpre
        constructor <;>
          simp [lambda_handler_beta.lambda_handler, hpre,
            lambda_handler_beta.err400]

/-- C1, witness for the amended claim at concrete inputs: a `.txt` key is
    skipped by the batch handler (the singleton batch behaves like the
    empty one) and is a 400 failure with zero calls for the beta handler. -/
theorem C1_witness :
    (lowerEndsWithAny (unquote_plus "rekognition-input/beta/notes.txt")
        rekognition_handler.imageExts = false ∧
      (rekognition_handler.lambda_handler env0
        ⟨some [⟨"imgs", "rekognition-input/beta/notes.txt"⟩]⟩).trace =
        (rekognition_handler.lambda_handler env0 ⟨some []⟩).trace) ∧
    ((lambda_handler_beta.lambda_handler env0
        ⟨some [⟨"imgs", "rekognition-input/beta/notes.txt"⟩]⟩).statusCode = 400 ∧
      (lambda_handler_beta.lambda_handler env0
        ⟨some [⟨"imgs", "rekognition-input/beta/notes.txt"⟩]⟩).trace = Trace.empty) :=
  ⟨⟨by decide,
    (C1_amended.1 env0 ⟨"imgs", "rekognition-input/beta/notes.txt"⟩ [] (by decide)).2⟩,
    C1_amended.2 env0 "imgs" "rekognition-input/beta/notes.txt" (.inr (by decide))⟩

/-- C2, counterexample. The claim says every persisted record carries
    `ttl = creation epoch seconds + 7776000`; but the item the beta
    handler persists for a valid key has no `ttl` key at all. -/
theorem C2_counterexample :
    ((lambda_handler_beta.lambda_handler env0
      ⟨some [⟨"imgs", "rekognition-input/beta/dog.jpg"⟩]⟩).trace.stored.map
        Item.ttl) = [none] := by
  decide

/-- C2 (amended): only records persisted by the batch handler
    (`rekognition_handler.py`) carry `ttl`, and there it equals the
    creation instant in epoch seconds plus exactly 7,776,000; records the
    beta handler persists have no `ttl` field, and the prod handler never
    persists a record at all. -/
theorem C2_amended :
    (∀ (env : Env) (ev : S3Event) (it : Item),
      it ∈ (rekognition_handler.lambda_handler env ev).trace.stored →
      it.ttl = some (env.nowEpoch + 7776000)) ∧
    (∀ (env : Env) (ev : S3Event) (it : Item),
      it ∈ (lambda_handler_beta.lambda_handler env ev).trace.stored →
      it.ttl = none) ∧
    (∀ (env : Env) (ev : S3Event),
      (lambda_handler_prod.lambda_handler env ev).trace.stored = []) := by
  refine ⟨?_, ?_, ?_⟩
  · intro env ev it h
    rcases ev with ⟨_ | rs⟩
    · simp [rekognition_handler.lambda_handler, Trace.empty] at h
    · have hmem : it ∈ (rekognition_handler.processRecords env rs).trace.stored := by
        rw [← rek_handler_trace env rs]
        exact h
      rcases processRecords_stored_shape env rs it hmem with ⟨r, _, resp, hit⟩
      rw [hit]
      simp [rekognition_handler.mkItem]
  · intro env ev it h
    rcases beta_stored_shape env ev it h with ⟨r, rest, resp, _, hit⟩
    rw [hit]
    simp [lambda_handler_beta.mkItem]
  · intro env ev
    exact (prod_stored_empty env ev).1

/-- C2, witness for the amended claim: the batch handler's persisted item
    for a valid key has `ttl = nowEpoch + 7776000`, and the beta handler's
    persisted item for the same key has none. -/
theorem C2_witness :
    ((rekognition_handler.mkItem env0
        (unquote_plus "rekognition-input/beta/dog.jpg") dogResp) ∈
      (rekognition_handler.lambda_handler env0
        ⟨some [⟨"imgs", "rekognition-input/beta/dog.jpg"⟩]⟩).trace.stored ∧
      (rekognition_handler.mkItem env0
        (unquote_plus "rekognition-input/beta/dog.jpg") dogResp).ttl =
        some (env0.nowEpoch + 7776000)) ∧
    ((lambda_handler_beta.mkItem env0 "imgs"
        (unquote_plus "rekognition-input/beta/dog.jpg") dogResp) ∈
      (lambda_handler_beta.lambda_handler env0
        ⟨some [⟨"imgs", "rekognition-input/beta/dog.jpg"⟩]⟩).trace.stored ∧
      (lambda_handler_beta.mkItem env0 "imgs"
        (unquote_plus "rekognition-input/beta/dog.jpg") dogResp).ttl = none) :=
  ⟨⟨List.Mem.head _, C2_amended.1 env0
      ⟨some [⟨"imgs", "rekognition-input/beta/dog.jpg"⟩]⟩ _ (List.Mem.head _)⟩,
    ⟨List.Mem.head _, C2_amended.2.1 env0
      ⟨some [⟨"imgs", "rekognition-input/beta/dog.jpg"⟩]⟩ _ (List.Mem.head _)⟩⟩

/-- C3, counterexample. The claim says a notification lacking `Records`
    terminates with a 400-equivalent status in every handler; the batch
    handler's blanket `except` maps the `KeyError` to 500 instead. -/
theorem C3_counterexample :
    (rekognition_handler.lambda_handler env0 ⟨none⟩).statusCode = 500 ∧
    ¬ (rekognition_handler.lambda_handler env0 ⟨none⟩).statusCode = 400 := by
  refine ⟨by decide, by decide⟩

/-- C3 (amended): on a notification lacking the `Records` list, the beta
    and prod handlers return 400 and write nothing, while the batch
    handler returns 500 — also writing nothing. -/
theorem C3_amended (env : Env) :
    (lambda_handler_beta.lambda_handler env ⟨none⟩).statusCode = 400 ∧
    (lambda_handler_beta.lambda_handler env ⟨none⟩).trace = Trace.empty ∧
    (lambda_handler_prod.lambda_handler env ⟨none⟩).returned = some 400 ∧
    (lambda_handler_prod.lambda_handler env ⟨none⟩).trace = Trace.empty ∧
    (rekognition_handler.lambda_handler env ⟨none⟩).statusCode = 500 ∧
    (rekognition_handler.lambda_handler env ⟨none⟩).trace = Trace.empty :=
  ⟨rfl, rfl, rfl, rfl, rfl, rfl⟩

/-- C4, counterexample. The claim says the success body's count equals the
    number of events persisted; on a two-record batch whose first key is
    skipped (`notes.txt`), the handler still succeeds with
    `processed_count = 2` while exactly one record was persisted. -/
theorem C4_counterexample :
    (rekognition_handler.lambda_handler env0
      ⟨some [⟨"imgs", "notes.txt"⟩,
        ⟨"imgs", "rekognition-input/beta/dog.jpg"⟩]⟩).statusCode = 200 ∧
    (rekognition_handler.lambda_handler env0
      ⟨some [⟨"imgs", "notes.txt"⟩,
        ⟨"imgs", "rekognition-input/beta/dog.jpg"⟩]⟩).processed_count = some 2 ∧
    (rekognition_handler.lambda_handler env0
      ⟨some [⟨"imgs", "notes.txt"⟩,
        ⟨"imgs", "rekognition-input/beta/dog.jpg"⟩]⟩).trace.stored.length = 1 := by
  refine ⟨by decide, by decide, by decide⟩

/-- C4 (amended): when the batch handler terminates in the success state,
    the reported `processed_count` is `len(event['Records'])` — the total
    number of record entries in the notification, skipped events
    included — which can exceed the number of events persisted. -/
theorem C4_amended (env : Env) (records : List S3ObjectRef)
    (h : (rekognition_handler.lambda_handler env ⟨some records⟩).statusCode = 200) :
    (rekognition_handler.lambda_handler env ⟨some records⟩).processed_count =
      some records.length := by
  rcases hrec : rekognition_handler.processRecords env records with tr | ⟨e, tr⟩
  · simp [rekognition_handler.lambda_handler, hrec]
  · simp [rekognition_handler.lambda_handler, hrec] at h

/-- C4, witness for the amended claim at the two-record batch. -/
theorem C4_witness :
    (rekognition_handler.lambda_handler env0
      ⟨some [⟨"imgs", "notes.txt"⟩,
        ⟨"imgs", "rekognition-input/beta/dog.jpg"⟩]⟩).statusCode = 200 ∧
    (rekognition_handler.lambda_handler env0
      ⟨some [⟨"imgs", "notes.txt"⟩,
        ⟨"imgs", "rekognition-input/beta/dog.jpg"⟩]⟩).processed_count = some 2 :=
  ⟨by decide, C4_amended env0 _ (by decide)⟩

/-- C5: for an event whose decoded key passes validation but whose
    classifier call fails, both handlers return 500, persist nothing (and
    attempt no store write), and make exactly one classification attempt —
    no retry. Stated for the beta handler and for a single-record batch in
    the batch handler. -/
theorem C5_theorem :
    (∀ (env : Env) (bucket rawKey msg : String),
      pyStartsWith (unquote_plus rawKey) lambda_handler_beta.requiredStart = true →
      lowerEndsWithAny (unquote_plus rawKey)
        lambda_handler_beta.valid_extensions = true →
      env.detectLabels ⟨bucket, unquote_plus rawKey, 10, 70⟩ = .error msg →
      (lambda_handler_beta.lambda_handler env
        ⟨some [⟨bucket, rawKey⟩]⟩).statusCode = 500 ∧
      (lambda_handler_beta.lambda_handler env
        ⟨some [⟨bucket, rawKey⟩]⟩).trace.stored = [] ∧
      (lambda_handler_beta.lambda_handler env
        ⟨some [⟨bucket, rawKey⟩]⟩).trace.putCalls = [] ∧
      (lambda_handler_beta.lambda_handler env
        ⟨some [⟨bucket, rawKey⟩]⟩).trace.rekCalls.length = 1) ∧
    (∀ (env : Env) (r : S3ObjectRef) (msg : String),
      lowerEndsWithAny (unquote_plus r.rawKey) rekognition_handler.imageExts = true →
      env.detectLabels (rekCallOf env r) = .error msg →
      (rekognition_handler.lambda_handler env ⟨some [r]⟩).statusCode = 500 ∧
      (rekognition_handler.lambda_handler env ⟨some [r]⟩).trace.stored = [] ∧
      (rekognition_handler.lambda_handler env ⟨some [r]⟩).trace.putCalls = [] ∧
      (rekognition_handler.lambda_handler env ⟨some [r]⟩).trace.rekCalls =
        [rekCallOf env r]) := by
  constructor
  · intro env bucket rawKey msg hpre hext hd
    refine ⟨?_, ?_, ?_, ?_⟩ <;>
      simp [lambda_handler_beta.lambda_handler, hpre, hext, hd]
  · intro env r msg hx hd
    refine ⟨?_, ?_, ?_, ?_⟩ <;>
      simp [rekognition_handler.lambda_handler, rekognition_handler.processRecords,
        hx, hd, rekognition_handler.LoopRes.trace]

/-- C5, witness: with a classifier that fails with a transport error, a
    valid beta key gives a 500, nothing stored, and one call, in both
    handlers. -/
theorem C5_witness :
    ((lambda_handler_beta.lambda_handler envFail
        ⟨some [⟨"imgs", "rekognition-input/beta/dog.jpg"⟩]⟩).statusCode = 500 ∧
      (lambda_handler_beta.lambda_handler envFail
        ⟨some [⟨"imgs", "rekognition-input/beta/dog.jpg"⟩]⟩).trace.stored = [] ∧
      (lambda_handler_beta.lambda_handler envFail
        ⟨some [⟨"imgs", "rekognition-input/beta/dog.jpg"⟩]⟩).trace.putCalls = [] ∧
      (lambda_handler_beta.lambda_handler envFail
        ⟨some [⟨"imgs", "rekognition-input/beta/dog.jpg"⟩]⟩).trace.rekCalls.length
        = 1) ∧
    ((rekognition_handler.lambda_handler envFail
        ⟨some [⟨"imgs", "rekognition-input/beta/dog.jpg"⟩]⟩).statusCode = 500 ∧
      (rekognition_handler.lambda_handler envFail
        ⟨some [⟨"imgs", "rekognition-input/beta/dog.jpg"⟩]⟩).trace.stored = [] ∧
      (rekognition_handler.lambda_handler envFail
        ⟨some [⟨"imgs", "rekognition-input/beta/dog.jpg"⟩]⟩).trace.putCalls = [] ∧
      (rekognition_handler.lambda_handler envFail
        ⟨some [⟨"imgs", "rekognition-input/beta/dog.jpg"⟩]⟩).trace.rekCalls =
        [rekCallOf envFail ⟨"imgs", "rekognition-input/beta/dog.jpg"⟩]) :=
  ⟨C5_theorem.1 envFail "imgs" "rekognition-input/beta/dog.jpg" "timeout"
      (by decide) (by decide) rfl,
    C5_theorem.2 envFail ⟨"imgs", "rekognition-input/beta/dog.jpg"⟩ "timeout"
      (by decide) rfl⟩

/-- C6, code bug. The claim (matching the obvious intent of all three
    handlers) says every persisted record's timestamp is the current UTC
    time, ISO-8601 with a trailing `Z`; but the prod handler's line 86
    evaluates `datetime.timezone()` where `datetime` is the class imported
    by `from datetime import datetime`, raising an uncaught
    `AttributeError`, so a valid prod event crashes the invocation before
    any record (or timestamp) is built. This theorem evaluates the handler
    at the failing input. -/
theorem C6_theorem :
    (lambda_handler_prod.lambda_handler env0
      ⟨some [⟨"imgs", "rekognition-input/prod/cat.png"⟩]⟩).raised =
      some PyErr.attributeError ∧
    (lambda_handler_prod.lambda_handler env0
      ⟨some [⟨"imgs", "rekognition-input/prod/cat.png"⟩]⟩).returned = none ∧
    (lambda_handler_prod.lambda_handler env0
      ⟨some [⟨"imgs", "rekognition-input/prod/cat.png"⟩]⟩).trace.putCalls = [] ∧
    (lambda_handler_prod.lambda_handler env0
      ⟨some [⟨"imgs", "rekognition-input/prod/cat.png"⟩]⟩).trace.stored = [] := by
  refine ⟨by decide, by decide, by decide, by decide⟩

/-- C7, counterexample. The claim says a notification with n records has
    the pipeline applied to each of them; the beta handler examines only
    `event['Records'][0]`, so of two equally valid records only the first
    is ever classified. -/
theorem C7_counterexample :
    (lambda_handler_beta.lambda_handler env0
      ⟨some [⟨"imgs", "rekognition-input/beta/a.jpg"⟩,
        ⟨"imgs", "rekognition-input/beta/b.jpg"⟩]⟩).trace.rekCalls =
      [⟨"imgs", "rekognition-input/beta/a.jpg", 10, 70⟩] := rfl

/-- C7 (amended): the batch handler applies the pipeline to each of the n
    records in arrival order (under a healthy classifier and store and
    valid keys, the call list is exactly the per-record call list in batch
    order); the beta and prod handlers process only the first record — an
    event with extra records behaves identically to its one-record
    truncation. -/
theorem C7_amended :
    (∀ (env : Env) (r : S3ObjectRef) (rest : List S3ObjectRef),
      lambda_handler_beta.lambda_handler env ⟨some (r :: rest)⟩ =
        lambda_handler_beta.lambda_handler env ⟨some [r]⟩ ∧
      lambda_handler_prod.lambda_handler env ⟨some (r :: rest)⟩ =
        lambda_handler_prod.lambda_handler env ⟨some [r]⟩) ∧
    (∀ (env : Env) (records : List S3ObjectRef),
      (∀ c, exOk (env.detectLabels c) = true) →
      (∀ t it, exOk (env.putItem t it) = true) →
      (∀ r ∈ records,
        lowerEndsWithAny (unquote_plus r.rawKey) rekognition_handler.imageExts
          = true) →
      (rekognition_handler.lambda_handler env ⟨some records⟩).trace.rekCalls =
        records.map (rekCallOf env)) := by
  constructor
  · exact fun env r rest => ⟨rfl, rfl⟩
  · intro env records hc hp hall
    have hcalls := processRecords_allOk_calls env hc hp records hall
    rcases hrec : rekognition_handler.processRecords env records with tr | ⟨e, tr⟩ <;>
      rw [hrec] at hcalls <;>
        simpa [rekognition_handler.lambda_handler, hrec,
          rekognition_handler.LoopRes.trace] using hcalls

/-- C7, witness for the amended claim: a two-record all-valid batch under
    a healthy environment produces exactly the two calls in order, and the
    beta handler on the same event equals its one-record truncation. -/
theorem C7_witness :
    (rekognition_handler.lambda_handler env0
      ⟨some [⟨"imgs", "rekognition-input/beta/a.jpg"⟩,
        ⟨"imgs", "rekognition-input/beta/b.jpg"⟩]⟩).trace.rekCalls =
      [⟨"imgs", "rekognition-input/beta/a.jpg"⟩,
        ⟨"imgs", "rekognition-input/beta/b.jpg"⟩].map (rekCallOf env0) ∧
    lambda_handler_beta.lambda_handler env0
      ⟨some [⟨"imgs", "rekognition-input/beta/a.jpg"⟩,
        ⟨"imgs", "rekognition-input/beta/b.jpg"⟩]⟩ =
      lambda_handler_beta.lambda_handler env0
        ⟨some [⟨"imgs", "rekognition-input/beta/a.jpg"⟩]⟩ :=
  ⟨C7_amended.2 env0 _ (fun c => rfl) (fun t it => rfl) (by decide),
    (C7_amended.1 env0 ⟨"imgs", "rekognition-input/beta/a.jpg"⟩
      [⟨"imgs", "rekognition-input/beta/b.jpg"⟩]).1⟩

/-- C8: object keys are percent-decoded before use — every classifier call
    and every persisted record, in the batch handler and in the beta
    handler, carries the `unquote_plus`-decoded key of the originating
    record; and the decoding resolves `+` to a space as in the spec's
    example. -/
theorem C8_theorem :
    unquote_plus "rekognition-input/beta/my+file.jpg" =
      "rekognition-input/beta/my file.jpg" ∧
    (∀ (env : Env) (rs : List S3ObjectRef) (c : RekCall),
      c ∈ (rekognition_handler.lambda_handler env ⟨some rs⟩).trace.rekCalls →
      ∃ r ∈ rs, c.key = unquote_plus r.rawKey ∧ c.bucket = r.bucket) ∧
    (∀ (env : Env) (rs : List S3ObjectRef) (it : Item),
      it ∈ (rekognition_handler.lambda_handler env ⟨some rs⟩).trace.stored →
      ∃ r ∈ rs, it.filename = unquote_plus r.rawKey) ∧
    (∀ (env : Env) (ev : S3Event) (c : RekCall),
      c ∈ (lambda_handler_beta.lambda_handler env ev).trace.rekCalls →
      ∃ r rest, ev.records? = some (r :: rest) ∧ c.key = unquote_plus r.rawKey) ∧
    (∀ (env : Env) (ev : S3Event) (it : Item),
      it ∈ (lambda_handler_beta.lambda_handler env ev).trace.stored →
      ∃ r rest, ev.records? = some (r :: rest) ∧
        it.filename = unquote_plus r.rawKey) := by
  refine ⟨by decide, ?_, ?_, ?_, ?_⟩
  · intro env rs c h
    have hmem : c ∈ (rekognition_handler.processRecords env rs).trace.rekCalls := by
      rw [← rek_handler_trace env rs]
      exact h
    rcases processRecords_calls_shape env rs c hmem with ⟨r, hr, hc⟩
    exact ⟨r, hr, by rw [hc]; exact ⟨rfl, rfl⟩⟩
  · intro env rs it h
    have hmem : it ∈ (rekognition_handler.processRecords env rs).trace.stored := by
      rw [← rek_handler_trace env rs]
      exact h
    rcases processRecords_stored_shape env rs it hmem with ⟨r, hr, resp, hit⟩
    exact ⟨r, hr, by rw [hit]; rfl⟩
  · intro env ev c h
    rcases beta_calls_shape env ev c h with ⟨r, rest, hrec, hc⟩
    exact ⟨r, rest, hrec, by rw [hc]⟩
  · intro env ev it h
    rcases beta_stored_shape env ev it h with ⟨r, rest, resp, hrec, hit⟩
    exact ⟨r, rest, hrec, by rw [hit]; rfl⟩

/-- C8, witness: the spec's example key decodes with the `+` resolved, and
    at that concrete event the beta handler's one classifier call indeed
    uses the decoded key. -/
theorem C8_witness :
    ((⟨"imgs", "rekognition-input/beta/my file.jpg", 10, 70⟩ : RekCall) ∈
      (lambda_handler_beta.lambda_handler env0
        ⟨some [⟨"imgs", "rekognition-input/beta/my+file.jpg"⟩]⟩).trace.rekCalls) ∧
    (∃ r rest,
      (⟨some [⟨"imgs", "rekognition-input/beta/my+file.jpg"⟩]⟩ : S3Event).records?
        = some (r :: rest) ∧
      (⟨"imgs", "rekognition-input/beta/my file.jpg", 10, 70⟩ : RekCall).key =
        unquote_plus r.rawKey) :=
  ⟨List.Mem.head _,
    C8_theorem.2.2.2.1 env0
      ⟨some [⟨"imgs", "rekognition-input/beta/my+file.jpg"⟩]⟩ _ (List.Mem.head _)⟩

/-- C9: branch resolution in the batch handler splits the key on `/`; a
    second path segment becomes the branch (`rekognition-input/prod/cat.png`
    resolves to `prod`), a one-segment key falls back to the configured
    `ENVIRONMENT` default, and every persisted record's `branch` field is
    resolved this way from its own (decoded) filename. -/
theorem C9_theorem :
    (∀ d : String,
      ((pySplit "rekognition-input/prod/cat.png" '/')[1]?).getD d = "prod") ∧
    (∀ (d key s0 b : String) (rest : List String),
      pySplit key '/' = s0 :: b :: rest →
      ((pySplit key '/')[1]?).getD d = b) ∧
    (∀ d key : String,
      pySplit key '/' = [key] →
      ((pySplit key '/')[1]?).getD d = d) ∧
    (∀ (env : Env) (ev : S3Event) (it : Item),
      it ∈ (rekognition_handler.lambda_handler env ev).trace.stored →
      it.branch = ((pySplit it.filename '/')[1]?).getD env.ENVIRONMENT) := by
  refine ⟨?_, ?_, ?_, ?_⟩
  · intro d
    rfl
  · intro d key s0 b rest hsplit
    rw [hsplit]
    simp
  · intro d key hsplit
    rw [hsplit]
    simp
  · intro env ev it h
    rcases ev with ⟨_ | rs⟩
    · simp [rekognition_handler.lambda_handler, Trace.empty] at h
    · have hmem : it ∈ (rekognition_handler.processRecords env rs).trace.stored := by
        rw [← rek_handler_trace env rs]
        exact h
      rcases processRecords_stored_shape env rs it hmem with ⟨r, _, resp, hit⟩
      rw [hit]
      rfl

/-- C9, witness: the spec's concrete key has `prod` as second segment and
    resolves to branch `prod`; a dotless one-segment key resolves to the
    default. -/
theorem C9_witness :
    (pySplit "rekognition-input/prod/cat.png" '/' =
      "rekognition-input" :: "prod" :: ["cat.png"] ∧
      ((pySplit "rekognition-input/prod/cat.png" '/')[1]?).getD "beta" = "prod") ∧
    (pySplit "cat.png" '/' = ["cat.png"] ∧
      ((pySplit "cat.png" '/')[1]?).getD "beta" = "beta") :=
  ⟨⟨by decide,
    C9_theorem.2.1 "beta" "rekognition-input/prod/cat.png" "rekognition-input"
      "prod" ["cat.png"] (by decide)⟩,
    ⟨by decide, C9_theorem.2.2.1 "beta" "cat.png" (by decide)⟩⟩

/-- C10: the direct-invocation script's extension gate accepts any
    filename whose lowercased form merely ends with the bare substring
    `pdf` — no preceding dot required — because its allowed-extension list
    contains `pdf` rather than `.pdf`; in particular `reportpdf` passes. -/
theorem C10_theorem :
    (∀ filename : String,
      pyEndsWith (pyLower filename) "pdf" = true →
      analyze_image_foundational.extensionOk filename = true) ∧
    analyze_image_foundational.extensionOk "reportpdf" = true := by
  constructor
  · intro f h
    simp [analyze_image_foundational.extensionOk,
      analyze_image_foundational.valid_extensions, h]
  · decide

/-- C10, witness: `reportpdf` (no dot) ends with `pdf` and passes the
    script's extension gate. -/
theorem C10_witness :
    pyEndsWith (pyLower "reportpdf") "pdf" = true ∧
    analyze_image_foundational.extensionOk "reportpdf" = true :=
  ⟨by decide, C10_theorem.1 "reportpdf" (by decide)⟩
